import Mathlib

/-!
Shallow embedding of `src/app.py` (the Erdbeerkäse one-feed merger).

The program fetches a public Acast feed and a credential-parameterised
Patreon feed (both parsed by the feedparser library into dictionaries),
merges the channel metadata (`_set_feed_data`), concatenates and sorts the
entries by their parsed publication timestamp, numbers them from 1
(`_set_feed_entry_data`), and memoises the whole build per credential in a
TTL cache (`cachetools.cached` with `TTLCache(maxsize=1024, ttl=60)`).

Modelling conventions:
* Dictionary keys that the code reads with `d['k']` (a `KeyError` aborts
  the build if they are missing) are plain structure fields; keys read
  with `d.get(...)` are `Option` fields (or lists, when the default is a
  list).  Link dictionaries keep every key optional because the code
  itself uses `link.get(...)` on them — which is what makes the one
  remaining direct index, `patreon_link['href']` on line 40, partial.
* Parsed timestamps (`published_parsed`, a totally ordered time tuple in
  Python) are `Nat`.
* Exceptions are `Except`: `KeyError`-style failures carry a message,
  `fastapi.HTTPException` carries the status code and detail.
* Python's `list.sort(key=...)` first computes the key of every element
  (failing on the first element whose key access raises) and then performs
  a stable sort; it is embedded as `decorateEntries` followed by a stable
  insertion sort `sortByKey`.
-/

namespace FeedApp

/-- A link dictionary as produced by the feed parser; every key may be absent. -/
structure SrcLink where
  rel : Option String
  href : Option String
  type : Option String
  length : Option String
  title : Option String
deriving DecidableEq, Repr

/-- The `summary_detail` sub-dictionary of an entry (`value` and `type` are
read with direct indexing in `_set_feed_entry_data`). -/
structure SummaryDetail where
  value : String
  type : String
deriving DecidableEq, Repr

/-- One parsed upstream entry, as read by `_set_feed_entry_data` and the
sort key access `x['published_parsed']` of `generate_merged_feed`. -/
structure SrcEntry where
  title : String
  links : List SrcLink
  summary_detail : SummaryDetail
  id : String
  guidislink : Bool
  published : String
  published_parsed : Option Nat
  itunes_season : Option Nat
  itunes_explicit : Option Bool
  itunes_duration : Option String
  itunes_episodetype : Option String
  itunes_title : Option String
deriving DecidableEq, Repr

/-- The `author_detail` sub-dictionary (`name`/`email` read with `.get`). -/
structure AuthorDetail where
  name : Option String
  email : Option String
deriving DecidableEq, Repr

/-- The `image` sub-dictionary (`href`/`title`/`link` read with `.get`). -/
structure ImageData where
  href : Option String
  title : Option String
  link : Option String
deriving DecidableEq, Repr

/-- One entry of the `tags` list (`term`/`scheme`/`label` read with `.get`). -/
structure TagData where
  term : Option String
  scheme : Option String
  label : Option String
deriving DecidableEq, Repr

/-- Channel-level dictionary of a parsed feed, covering every key
`_set_feed_data` reads from `acast_data` or `patreon_data`.  `generator` is
present in parsed feeds but never read by the code. -/
structure FeedMeta where
  title : String
  summary : String
  links : List SrcLink
  language : String
  rights : String
  ttl : Option Nat
  generator : Option String
  author_detail : AuthorDetail
  image : ImageData
  tags : List TagData
  itunes_explicit : Bool
  itunes_type : String
  subtitle : String
deriving DecidableEq, Repr

/-- A channel-level link as emitted by `merged_feed.link(...)`; the code
always passes a `title` string (defaulted to "Acast Feed"). -/
structure OutLink where
  rel : Option String
  href : Option String
  type : Option String
  length : Option String
  title : String
deriving DecidableEq, Repr

/-- An entry-level link as emitted by `fe.link(...)` (no title argument). -/
structure EntryLink where
  rel : Option String
  href : Option String
  type : Option String
  length : Option String
deriving DecidableEq, Repr

/-- The channel-level state of the merged `FeedGenerator` after
`_set_feed_data` has run: one field per setter call. -/
structure MergedChannel where
  title : String
  description : String
  links : List OutLink
  language : String
  rights : String
  ttl : Nat
  generator : String
  author_name : Option String
  author_email : Option String
  managingEditor : Option String
  image_url : Option String
  image_title : Option String
  image_link : Option String
  categories : List TagData
  itunes_explicit : Bool
  itunes_type : String
  itunes_author : Option String
  itunes_image : Option String
  itunes_subtitle : String
  itunes_summary : String
  owner_name : Option String
  owner_email : Option String
  lastBuildDate : Nat
deriving DecidableEq, Repr

/-- The state of one merged `FeedEntry` after `_set_feed_entry_data`. -/
structure MergedEntry where
  title : String
  links : List EntryLink
  summary : String
  summary_type : String
  guid : String
  permalink : Bool
  published : String
  itunes_season : Nat
  itunes_episode : Nat
  itunes_explicit : Option Bool
  itunes_duration : Option String
  itunes_episodetype : String
  itunes_title : Option String
deriving DecidableEq, Repr

/-- Cache TTL constant `__CACHE_TTL__` of line 15. -/
def CACHE_TTL : Nat := 60

/-- Error threshold `__HTTP_ERROR__` of line 16. -/
def HTTP_ERROR : Nat := 400

/-- Re-emission of one public-feed link by the loop on lines 25-32:
rel/href/type/length are forwarded, the title defaults to "Acast Feed". -/
def acastLinkOut (link : SrcLink) : OutLink :=
  { rel := link.rel
    href := link.href
    type := link.type
    length := link.length
    title := link.title.getD "Acast Feed" }

/-- Embeds `_set_feed_data` (lines 19-79).  All channel fields are taken
from `acast_data` except the appended "related" link (taken from the first
`rel == 'self'` link of `patreon_data`, if any) and `itunes_subtitle`
(taken from `patreon_data['subtitle']`).  The direct index
`patreon_link['href']` on line 40 raises a `KeyError` when the self link
has no `href` key; `lastBuildDate` records the current time `now`. -/
def _set_feed_data (acast_data patreon_data : FeedMeta) (now : Nat) :
    Except String MergedChannel :=
  let baseLinks := acast_data.links.map acastLinkOut
  let patreon_link := patreon_data.links.find? (fun l => l.rel == some "self")
  let mkChannel : List OutLink → MergedChannel := fun links =>
    { title := acast_data.title
      description := acast_data.summary
      links := links
      language := acast_data.language
      rights := acast_data.rights
      ttl := acast_data.ttl.getD CACHE_TTL
      generator := "Acast and Patreon"
      author_name := acast_data.author_detail.name
      author_email := acast_data.author_detail.email
      managingEditor := acast_data.author_detail.email
      image_url := acast_data.image.href
      image_title := acast_data.image.title
      image_link := acast_data.image.link
      categories := acast_data.tags
      itunes_explicit := acast_data.itunes_explicit
      itunes_type := acast_data.itunes_type
      itunes_author := acast_data.author_detail.name
      itunes_image := acast_data.image.href
      itunes_subtitle := patreon_data.subtitle
      itunes_summary := acast_data.summary
      owner_name := acast_data.author_detail.name
      owner_email := acast_data.author_detail.email
      lastBuildDate := now }
  match patreon_link with
  | none => Except.ok (mkChannel baseLinks)
  | some l =>
    match l.href with
    | none => Except.error "KeyError: href"
    | some h =>
      Except.ok (mkChannel (baseLinks ++
        [{ rel := some "related"
           href := some h
           type := some "application/rss+xml"
           length := none
           title := "Patreon Feed" }]))

/-- Embeds `_set_feed_entry_data` (lines 82-105) applied to one entry with
episode number `number`. -/
def _set_feed_entry_data (entry : SrcEntry) (number : Nat) : MergedEntry :=
  { title := entry.title
    links := entry.links.map (fun l =>
      { rel := l.rel, href := l.href, type := l.type, length := l.length })
    summary := entry.summary_detail.value
    summary_type := entry.summary_detail.type
    guid := entry.id
    permalink := entry.guidislink
    published := entry.published
    itunes_season := entry.itunes_season.getD 1
    itunes_episode := number
    itunes_explicit := entry.itunes_explicit
    itunes_duration := entry.itunes_duration
    itunes_episodetype := entry.itunes_episodetype.getD "full"
    itunes_title := entry.itunes_title }

/-- Key extraction pass of `raw_entries.sort(key=lambda x: x['published_parsed'])`
(line 137): pair every entry with its parsed timestamp, failing (with a
`KeyError`, modelled as `none`) as soon as one entry has no
`published_parsed`. -/
def decorateEntries : List SrcEntry → Option (List (Nat × SrcEntry))
  | [] => some []
  | e :: es =>
    match e.published_parsed with
    | none => none
    | some t => (decorateEntries es).map (fun l => (t, e) :: l)

/-- Insert an entry into a key-sorted list, before the first element whose
key is not smaller — the placement a stable sort gives an element coming
from earlier in the input. -/
def insertByKey (p : Nat × SrcEntry) : List (Nat × SrcEntry) → List (Nat × SrcEntry)
  | [] => [p]
  | q :: qs => if q.1 < p.1 then q :: insertByKey p qs else p :: q :: qs

/-- Stable sort by parsed timestamp, embedding the stable `list.sort` of
line 137 (any stable sort computes the same list). -/
def sortByKey : List (Nat × SrcEntry) → List (Nat × SrcEntry)
  | [] => []
  | p :: ps => insertByKey p (sortByKey ps)

/-- Embeds `enumerate(raw_entries, start=1)` (line 139). -/
def numberFrom (n : Nat) : List α → List (Nat × α)
  | [] => []
  | x :: xs => (n, x) :: numberFrom (n + 1) xs

/-- The loop of lines 139-141 over the sorted keyed entries: number from 1
and build each merged entry. -/
def buildEntries (l : List (Nat × SrcEntry)) : List MergedEntry :=
  (numberFrom 1 l).map (fun q => _set_feed_entry_data q.2.2 q.1)

/-- Embeds lines 136-141: concatenate the public entries before the
personal ones, sort by `published_parsed` (a missing timestamp raises a
`KeyError` that aborts the whole build), then number and copy the entries. -/
def mergeEntries (pub pers : List SrcEntry) : Except String (List MergedEntry) :=
  match decorateEntries (pub ++ pers) with
  | none => Except.error "KeyError: published_parsed"
  | some keyed => Except.ok (buildEntries (sortByKey keyed))

/-- One upstream response as seen through `feedparser.parse`: an HTTP
status, the channel dictionary and the entry list. -/
structure ParsedFeed where
  status : Nat
  feed : FeedMeta
  entries : List SrcEntry
deriving DecidableEq, Repr

/-- The fully built merged feed model returned by `generate_merged_feed`. -/
structure MergedFeed where
  channel : MergedChannel
  entries : List MergedEntry
deriving DecidableEq, Repr

/-- Failure of one build: `httpError` is `fastapi.HTTPException(status, detail)`
(raised on an upstream status of at least 400), `exn` is any other Python
exception such as a `KeyError`. -/
inductive BuildErr where
  | httpError (status : Nat) (detail : String)
  | exn (msg : String)
deriving DecidableEq, Repr

/-- Identifies which upstream a fetch call hits. -/
inductive FetchSrc where
  | acast
  | patreon
deriving DecidableEq, Repr

/-- Embeds the body of `generate_merged_feed` (lines 109-143) against an
upstream `world` (the responses the two `feedparser.parse` calls would
return; the credential only selects the Patreon URL, so a fixed credential
fixes `world`).  Returns the build outcome together with the list of
upstream fetches performed, in order. -/
def generate_merged_feed (world : FetchSrc → ParsedFeed) (now : Nat) :
    Except BuildErr MergedFeed × List FetchSrc :=
  let acast_feed := world FetchSrc.acast
  if HTTP_ERROR ≤ acast_feed.status then
    (Except.error (BuildErr.httpError acast_feed.status "Error fetching Acast feed"),
     [FetchSrc.acast])
  else
    let patreon_feed := world FetchSrc.patreon
    if HTTP_ERROR ≤ patreon_feed.status then
      (Except.error (BuildErr.httpError patreon_feed.status
        "Error fetching Patreon feed. Auth token correct?"),
       [FetchSrc.acast, FetchSrc.patreon])
    else
      match _set_feed_data acast_feed.feed patreon_feed.feed now with
      | Except.error m =>
        (Except.error (BuildErr.exn m), [FetchSrc.acast, FetchSrc.patreon])
      | Except.ok ch =>
        match mergeEntries acast_feed.entries patreon_feed.entries with
        | Except.error m =>
          (Except.error (BuildErr.exn m), [FetchSrc.acast, FetchSrc.patreon])
        | Except.ok es =>
          (Except.ok ⟨ch, es⟩, [FetchSrc.acast, FetchSrc.patreon])

/-- The memoisation state of the `cachetools.cached` decorator: credential,
expiry instant (insertion time plus TTL) and cached value. -/
abbrev Cache : Type := List (String × Nat × MergedFeed)

/-- TTLCache lookup: a stored value is returned while `now` is strictly
before its expiry instant. -/
def cacheLookup (c : Cache) (key : String) (now : Nat) : Option MergedFeed :=
  match c.find? (fun e => e.1 == key) with
  | some (_, exp, v) => if now < exp then some v else none
  | none => none

/-- TTLCache store: replaces any entry for `key` with a fresh one expiring
at `now + CACHE_TTL`. -/
def cacheStore (c : Cache) (key : String) (now : Nat) (v : MergedFeed) : Cache :=
  (key, now + CACHE_TTL, v) :: c.filter (fun e => e.1 != key)

/-- Embeds the `cachetools.cached(cache=TTLCache(maxsize=1024, ttl=60))`
wrapper of line 108 around `generate_merged_feed`: a fresh cached value for
the credential is returned without any fetch; otherwise the body runs and
its result is stored only on success (cachetools never caches a raised
exception).  The LRU eviction at capacity 1024 is not modelled; the claims
under study involve a single credential and never fill the cache. -/
def cachedPipeline (world : FetchSrc → ParsedFeed) (token : String) (now : Nat)
    (cache : Cache) : Except BuildErr MergedFeed × Cache × List FetchSrc :=
  match cacheLookup cache token now with
  | some v => (Except.ok v, cache, [])
  | none =>
    match generate_merged_feed world now with
    | (Except.ok v, log) => (Except.ok v, cacheStore cache token now v, log)
    | (Except.error e, log) => (Except.error e, cache, log)

/-- HTTP status the `/rss` route of lines 151-172 answers with: 200 on
success, the passthrough status of a re-raised `HTTPException`, and 500 for
any other exception; paired with the cache state after the request. -/
def rssStatus (world : FetchSrc → ParsedFeed) (token : String) (now : Nat)
    (cache : Cache) : Nat × Cache :=
  match cachedPipeline world token now cache with
  | (Except.ok _, c, _) => (200, c)
  | (Except.error (BuildErr.httpError s _), c, _) => (s, c)
  | (Except.error (BuildErr.exn _), c, _) => (500, c)

/-! ### Helper lemmas about the stable sort and the key-extraction pass -/

theorem mem_insertByKey {q p : Nat × SrcEntry} {l : List (Nat × SrcEntry)} :
    q ∈ insertByKey p l ↔ q = p ∨ q ∈ l := by
  induction l with
  | nil => simp [insertByKey]
  | cons r rs ih =>
    by_cases h : r.1 < p.1
    · simp only [insertByKey, if_pos h, List.mem_cons, ih]
      tauto
    · simp only [insertByKey, if_neg h, List.mem_cons]

theorem mem_sortByKey {q : Nat × SrcEntry} {l : List (Nat × SrcEntry)} :
    q ∈ sortByKey l ↔ q ∈ l := by
  induction l with
  | nil => simp [sortByKey]
  | cons r rs ih => simp [sortByKey, mem_insertByKey, ih]

theorem sorted_insertByKey {p : Nat × SrcEntry} {l : List (Nat × SrcEntry)}
    (h : List.Pairwise (fun a b => a.1 ≤ b.1) l) :
    List.Pairwise (fun a b => a.1 ≤ b.1) (insertByKey p l) := by
  induction l with
  | nil => simp [insertByKey]
  | cons q qs ih =>
    rcases List.pairwise_cons.mp h with ⟨hq, hqs⟩
    by_cases hlt : q.1 < p.1
    · simp only [insertByKey, if_pos hlt]
      refine List.pairwise_cons.mpr ⟨?_, ih hqs⟩
      intro r hr
      rcases mem_insertByKey.mp hr with rfl | hr
      · exact Nat.le_of_lt hlt
      · exact hq r hr
    · simp only [insertByKey, if_neg hlt]
      refine List.pairwise_cons.mpr ⟨?_, h⟩
      intro r hr
      rcases List.mem_cons.mp hr with rfl | hr
      · exact Nat.le_of_not_lt hlt
      · exact Nat.le_trans (Nat.le_of_not_lt hlt) (hq r hr)

theorem sorted_sortByKey (l : List (Nat × SrcEntry)) :
    List.Pairwise (fun a b => a.1 ≤ b.1) (sortByKey l) := by
  induction l with
  | nil => simp [sortByKey]
  | cons p ps ih => exact sorted_insertByKey ih

theorem filter_insertByKey (p : Nat × SrcEntry) (l : List (Nat × SrcEntry)) (k : Nat) :
    (insertByKey p l).filter (fun q => q.1 == k) =
      if p.1 = k then p :: l.filter (fun q => q.1 == k)
      else l.filter (fun q => q.1 == k) := by
  induction l with
  | nil =>
    simp only [insertByKey, List.filter_cons, List.filter_nil]
    by_cases hpk : p.1 = k
    · simp [hpk]
    · simp [hpk]
  | cons q qs ih =>
    simp only [insertByKey]
    by_cases hlt : q.1 < p.1
    · rw [if_pos hlt, List.filter_cons, List.filter_cons]
      by_cases hq : q.1 = k
      · have hp : ¬ p.1 = k := by omega
        simp [hq, hp, ih]
      · simp [hq, ih]
    · rw [if_neg hlt, List.filter_cons]
      by_cases hp : p.1 = k
      · simp [hp, List.filter_cons]
      · simp [hp, List.filter_cons]

theorem filter_sortByKey (l : List (Nat × SrcEntry)) (k : Nat) :
    (sortByKey l).filter (fun q => q.1 == k) = l.filter (fun q => q.1 == k) := by
  induction l with
  | nil => simp [sortByKey]
  | cons p ps ih =>
    by_cases hp : p.1 = k <;>
      simp [sortByKey, filter_insertByKey, hp, List.filter_cons, ih]

theorem decorateEntries_append {l1 l2 : List SrcEntry}
    {d1 d2 : List (Nat × SrcEntry)}
    (h1 : decorateEntries l1 = some d1) (h2 : decorateEntries l2 = some d2) :
    decorateEntries (l1 ++ l2) = some (d1 ++ d2) := by
  induction l1 generalizing d1 with
  | nil =>
    simp [decorateEntries] at h1
    simpa [h1]
  | cons e es ih =>
    simp only [decorateEntries] at h1
    cases hpp : e.published_parsed with
    | none => simp [hpp] at h1
    | some t =>
      simp only [hpp, Option.map_eq_some'] at h1
      rcases h1 with ⟨d1', hd1', rfl⟩
      simp [decorateEntries, hpp, ih hd1']

theorem decorateEntries_none_of_missing {l : List SrcEntry} {e : SrcEntry}
    (he : e ∈ l) (hpp : e.published_parsed = none) :
    decorateEntries l = none := by
  induction l with
  | nil => cases he
  | cons x xs ih =>
    rcases List.mem_cons.mp he with rfl | he
    · simp [decorateEntries, hpp]
    · cases hx : x.published_parsed <;> simp [decorateEntries, hx, ih he]

theorem mem_of_decorateEntries {l : List SrcEntry} {d : List (Nat × SrcEntry)}
    {t : Nat} {e : SrcEntry}
    (hd : decorateEntries l = some d) (he : (t, e) ∈ d) : e ∈ l := by
  induction l generalizing d with
  | nil =>
    simp [decorateEntries] at hd
    subst hd
    cases he
  | cons x xs ih =>
    simp only [decorateEntries] at hd
    cases hx : x.published_parsed with
    | none => simp [hx] at hd
    | some t' =>
      simp only [hx, Option.map_eq_some'] at hd
      rcases hd with ⟨d', hd', rfl⟩
      rcases List.mem_cons.mp he with h | h
      · injection h with h1 h2
        subst h2
        exact List.mem_cons_self _ _
      · exact List.mem_cons_of_mem x (ih hd' h)

theorem mergeEntries_ok {pub pers : List SrcEntry} {merged : List MergedEntry}
    (h : mergeEntries pub pers = Except.ok merged) :
    ∃ keyed, decorateEntries (pub ++ pers) = some keyed ∧
      merged = buildEntries (sortByKey keyed) := by
  unfold mergeEntries at h
  cases hd : decorateEntries (pub ++ pers) with
  | none => simp [hd] at h
  | some keyed =>
    simp only [hd] at h
    cases h
    exact ⟨keyed, rfl, rfl⟩

/-! ### Concrete fixtures used by witnesses and counterexamples -/

/-- Builds a minimal source entry with the given name and optional parsed
timestamp. -/
def mkEntry (nm : String) (ts : Option Nat) : SrcEntry :=
  { title := nm
    links := []
    summary_detail := ⟨"sum", "text/html"⟩
    id := nm
    guidislink := true
    published := nm
    published_parsed := ts
    itunes_season := none
    itunes_explicit := none
    itunes_duration := none
    itunes_episodetype := none
    itunes_title := none }

/-- Public-feed fixture entries published at 1 and 3. -/
def wPub : List SrcEntry := [mkEntry "p1" (some 1), mkEntry "p3" (some 3)]

/-- Personal-feed fixture entry published at 2. -/
def wPers : List SrcEntry := [mkEntry "q2" (some 2)]

/-- Keyed form of `wPub`. -/
def wDp : List (Nat × SrcEntry) :=
  [(1, mkEntry "p1" (some 1)), (3, mkEntry "p3" (some 3))]

/-- Keyed form of `wPers`. -/
def wDq : List (Nat × SrcEntry) := [(2, mkEntry "q2" (some 2))]

/-- An entry with no parsed publication timestamp. -/
def entryNoTs : SrcEntry := mkEntry "bad" none

/-- The merged entry list the fixture pair produces. -/
def wMergedList : List MergedEntry :=
  match mergeEntries wPub wPers with
  | Except.ok l => l
  | Except.error _ => []

/-- Junk merged entry used as a lookup default in closed statements. -/
def emptyMergedEntry : MergedEntry := _set_feed_entry_data (mkEntry "" none) 0

/-! ### C1 (sorted, stable merge) -/

/-- C1: for every pair of parsed feeds whose entries all carry a parsed
publication timestamp, the merge succeeds and produces the entries of the
stable sort of the public-then-personal concatenation: the keyed sequence
is sorted non-decreasing by timestamp, and for every timestamp the entries
carrying it appear as the public ones in their original order followed by
the personal ones in their original order, so a public-sourced entry never
appears after a personal-sourced entry with an equal timestamp. -/
theorem c1_merged_sorted_stable (pub pers : List SrcEntry)
    (dp dq : List (Nat × SrcEntry))
    (hp : decorateEntries pub = some dp) (hq : decorateEntries pers = some dq) :
    mergeEntries pub pers = Except.ok (buildEntries (sortByKey (dp ++ dq))) ∧
    List.Pairwise (fun a b => a.1 ≤ b.1) (sortByKey (dp ++ dq)) ∧
    ∀ k : Nat, (sortByKey (dp ++ dq)).filter (fun q => q.1 == k) =
      dp.filter (fun q => q.1 == k) ++ dq.filter (fun q => q.1 == k) := by
  have hcat := decorateEntries_append hp hq
  refine ⟨?_, sorted_sortByKey _, ?_⟩
  · unfold mergeEntries
    rw [hcat]
  · intro k
    rw [filter_sortByKey, List.filter_append]

/-- C1 witness: the theorem applied to the concrete fixture pair, with the
stability conjunct instantiated at timestamp 2. -/
theorem c1_witness :
    mergeEntries wPub wPers = Except.ok (buildEntries (sortByKey (wDp ++ wDq))) ∧
    List.Pairwise (fun a b => a.1 ≤ b.1) (sortByKey (wDp ++ wDq)) ∧
    (sortByKey (wDp ++ wDq)).filter (fun q => q.1 == 2) =
      wDp.filter (fun q => q.1 == 2) ++ wDq.filter (fun q => q.1 == 2) := by
  have h := c1_merged_sorted_stable wPub wPers wDp wDq rfl rfl
  exact ⟨h.1, h.2.1, h.2.2 2⟩

/-! ### C2 (episode numbers 1..N) -/

theorem numberFrom_episode (n : Nat) (l : List (Nat × SrcEntry)) :
    ((numberFrom n l).map (fun q => _set_feed_entry_data q.2.2 q.1)).map
        (fun me => me.itunes_episode) = List.range' n l.length := by
  induction l generalizing n with
  | nil => simp [numberFrom, List.range']
  | cons x xs ih =>
    simp only [numberFrom, List.map_cons, List.length_cons, List.range']
    rw [ih (n + 1)]
    rfl

theorem length_numberFrom (n : Nat) (l : List α) :
    (numberFrom n l).length = l.length := by
  induction l generalizing n with
  | nil => rfl
  | cons x xs ih => simp [numberFrom, ih]

theorem length_buildEntries (l : List (Nat × SrcEntry)) :
    (buildEntries l).length = l.length := by
  simp [buildEntries, length_numberFrom]

/-- C2: for every merged feed the assigned episode indices, read off in
merge order, are exactly 1, 2, ..., N where N is the length of the final
merged entry list. -/
theorem c2_episode_indices (pub pers : List SrcEntry) (merged : List MergedEntry)
    (h : mergeEntries pub pers = Except.ok merged) :
    merged.map (fun me => me.itunes_episode) = List.range' 1 merged.length := by
  rcases mergeEntries_ok h with ⟨keyed, hd, rfl⟩
  rw [length_buildEntries]
  simpa [buildEntries] using numberFrom_episode 1 (sortByKey keyed)

/-- C2 witness: the theorem applied to the concrete fixture pair. -/
theorem c2_witness :
    wMergedList.map (fun me => me.itunes_episode) =
      List.range' 1 wMergedList.length :=
  c2_episode_indices wPub wPers wMergedList rfl

/-! ### C3 (entry without a published timestamp) -/

/-- C3 counterexample: with a single public entry that has no parsed
publication timestamp, the merge does not complete with that entry
excluded (which would be the empty merged list); the key access of the
sort raises a `KeyError` that aborts the whole build. -/
theorem c3_counterexample :
    mergeEntries [entryNoTs] [] = Except.error "KeyError: published_parsed" ∧
    ¬ mergeEntries [entryNoTs] [] = Except.ok [] := by
  refine ⟨rfl, ?_⟩
  intro h
  rw [show mergeEntries [entryNoTs] [] =
      Except.error "KeyError: published_parsed" from rfl] at h
  exact Except.noConfusion h

/-- C3 amended: an input entry with no published timestamp is not skipped;
the sort's key access raises a `KeyError` and the whole merge fails (the
route surfaces this as HTTP 500), producing no merged list at all. -/
theorem c3_missing_ts_aborts (pub pers : List SrcEntry) (e : SrcEntry)
    (he : e ∈ pub ++ pers) (hpp : e.published_parsed = none) :
    mergeEntries pub pers = Except.error "KeyError: published_parsed" := by
  unfold mergeEntries
  rw [decorateEntries_none_of_missing he hpp]

/-- C3 witness: the amended theorem applied to a feed pair in which the
personal feed contains the timestamp-less entry among normal ones. -/
theorem c3_witness :
    mergeEntries wPub (entryNoTs :: wPers) =
      Except.error "KeyError: published_parsed" :=
  c3_missing_ts_aborts wPub (entryNoTs :: wPers) entryNoTs (by simp) rfl

/-! ### C9 (per-entry field copying and defaults) -/

theorem snd_mem_numberFrom {x : Nat × α} {n : Nat} {l : List α}
    (h : x ∈ numberFrom n l) : x.2 ∈ l := by
  induction l generalizing n with
  | nil => cases h
  | cons y ys ih =>
    rcases List.mem_cons.mp h with rfl | h
    · exact List.mem_cons_self _ _
    · exact List.mem_cons_of_mem _ (ih h)

/-- C9: every entry of the merged list comes from a source entry of the
concatenated inputs and copies its title, links, summary value and type,
id, permalink flag and published timestamp verbatim; the season defaults
to 1 and the episode type to "full" when the source omits them, and the
explicit flag and duration are copied exactly when present (left unset
when absent). -/
theorem c9_entry_copy (pub pers : List SrcEntry) (merged : List MergedEntry)
    (h : mergeEntries pub pers = Except.ok merged) :
    ∀ me ∈ merged, ∃ e, e ∈ pub ++ pers ∧
      me.title = e.title ∧
      me.links = e.links.map (fun l =>
        { rel := l.rel, href := l.href, type := l.type, length := l.length }) ∧
      me.summary = e.summary_detail.value ∧
      me.summary_type = e.summary_detail.type ∧
      me.guid = e.id ∧
      me.permalink = e.guidislink ∧
      me.published = e.published ∧
      me.itunes_season = e.itunes_season.getD 1 ∧
      me.itunes_explicit = e.itunes_explicit ∧
      me.itunes_duration = e.itunes_duration ∧
      me.itunes_episodetype = e.itunes_episodetype.getD "full" ∧
      me.itunes_title = e.itunes_title := by
  rcases mergeEntries_ok h with ⟨keyed, hd, rfl⟩
  intro me hme
  simp only [buildEntries, List.mem_map] at hme
  rcases hme with ⟨q, hq, rfl⟩
  have hqs : q.2 ∈ sortByKey keyed := snd_mem_numberFrom hq
  have hqk : q.2 ∈ keyed := mem_sortByKey.mp hqs
  have hmem : q.2.2 ∈ pub ++ pers := mem_of_decorateEntries hd hqk
  exact ⟨q.2.2, hmem, by simp [_set_feed_entry_data]⟩

/-- C9 witness: the theorem applied to the concrete fixture pair and the
first merged entry. -/
theorem c9_witness :
    ∃ e, e ∈ wPub ++ wPers ∧
      (wMergedList.getD 0 emptyMergedEntry).title = e.title ∧
      (wMergedList.getD 0 emptyMergedEntry).links = e.links.map (fun l =>
        { rel := l.rel, href := l.href, type := l.type, length := l.length }) ∧
      (wMergedList.getD 0 emptyMergedEntry).summary = e.summary_detail.value ∧
      (wMergedList.getD 0 emptyMergedEntry).summary_type = e.summary_detail.type ∧
      (wMergedList.getD 0 emptyMergedEntry).guid = e.id ∧
      (wMergedList.getD 0 emptyMergedEntry).permalink = e.guidislink ∧
      (wMergedList.getD 0 emptyMergedEntry).published = e.published ∧
      (wMergedList.getD 0 emptyMergedEntry).itunes_season = e.itunes_season.getD 1 ∧
      (wMergedList.getD 0 emptyMergedEntry).itunes_explicit = e.itunes_explicit ∧
      (wMergedList.getD 0 emptyMergedEntry).itunes_duration = e.itunes_duration ∧
      (wMergedList.getD 0 emptyMergedEntry).itunes_episodetype =
        e.itunes_episodetype.getD "full" ∧
      (wMergedList.getD 0 emptyMergedEntry).itunes_title = e.itunes_title :=
  c9_entry_copy wPub wPers wMergedList rfl
    (wMergedList.getD 0 emptyMergedEntry) (by decide)

/-! ### Channel-side fixtures and claims (C5, C8, C10) -/

/-- Author fixture. -/
def wAuthor : AuthorDetail := ⟨some "Au", some "au@example.com"⟩

/-- Image fixture. -/
def wImage : ImageData := ⟨some "http://img", some "ImgT", some "http://imgl"⟩

/-- Builds a channel dictionary fixture with the given links, generator
and subtitle. -/
def mkMeta (links : List SrcLink) (gen : Option String) (sub : String) : FeedMeta :=
  { title := "Title"
    summary := "Summary"
    links := links
    language := "de"
    rights := "Rights"
    ttl := none
    generator := gen
    author_detail := wAuthor
    image := wImage
    tags := []
    itunes_explicit := false
    itunes_type := "episodic"
    subtitle := sub }

/-- A public-feed link that itself carries rel "related". -/
def relatedLink : SrcLink := ⟨some "related", some "http://x/rel", none, none, none⟩

/-- A personal-feed self link without an href key. -/
def selfNoHref : SrcLink := ⟨some "self", none, none, none, none⟩

/-- A personal-feed self link carrying an href. -/
def selfWithHref : SrcLink :=
  ⟨some "self", some "http://p/self", none, none, none⟩

/-- Public channel fixture without special links. -/
def wAcastPlain : FeedMeta := mkMeta [] none "subA"

/-- Public channel fixture whose own link list carries a rel "related" link. -/
def cexAcastRelated : FeedMeta := mkMeta [relatedLink] none "subA"

/-- Public channel fixture carrying a generator string. -/
def cexAcastGen : FeedMeta := mkMeta [] (some "ExampleGen") "subA"

/-- Personal channel fixture with no rel "self" link. -/
def cexPatreonNoSelf : FeedMeta := mkMeta [] none "subP"

/-- Personal channel fixture whose first rel "self" link has no href. -/
def cexPatreonSelfNoHref : FeedMeta := mkMeta [selfNoHref] none "subP"

/-- Personal channel fixture with a proper self link. -/
def wPatreonSelf : FeedMeta := mkMeta [selfWithHref] none "subP"

/-- Junk channel used as a match default in closed statements. -/
def defaultChannel : MergedChannel :=
  { title := ""
    description := ""
    links := []
    language := ""
    rights := ""
    ttl := 0
    generator := ""
    author_name := none
    author_email := none
    managingEditor := none
    image_url := none
    image_title := none
    image_link := none
    categories := []
    itunes_explicit := false
    itunes_type := ""
    itunes_author := none
    itunes_image := none
    itunes_subtitle := ""
    itunes_summary := ""
    owner_name := none
    owner_email := none
    lastBuildDate := 0 }

/-- The channel `_set_feed_data` produces, or the junk channel when it
raises; used to phrase closed statements about concrete reconciliations. -/
def channelOr (a p : FeedMeta) (now : Nat) : MergedChannel :=
  match _set_feed_data a p now with
  | Except.ok ch => ch
  | Except.error _ => defaultChannel

/-- C5 counterexample: the personal feed has no rel "self" link, yet the
merged channel's link list does contain a rel "related" entry, because the
public feed's own links carry one and are re-emitted unchanged. -/
theorem c5_counterexample :
    cexPatreonNoSelf.links.find? (fun l => l.rel == some "self") = none ∧
    _set_feed_data cexAcastRelated cexPatreonNoSelf 0 =
      Except.ok (channelOr cexAcastRelated cexPatreonNoSelf 0) ∧
    (channelOr cexAcastRelated cexPatreonNoSelf 0).links.any
      (fun l => l.rel == some "related") = true :=
  ⟨rfl, rfl, rfl⟩

/-- C5 amended: every channel-level field sourced from the public feed
equals the public feed's value (the ttl falling back to 60 when absent and
re-emitted links defaulting an absent title to "Acast Feed"), never
overwritten by the personalized feed, with exactly two exceptions: the
subtitle is taken from the personalized feed, and a "related" link
pointing at the personalized feed's self link is appended when that self
link is present; when the personal feed has no rel "self" link, no
"related" link is appended — the merged link list is exactly the public
feed's re-emitted links, so it contains a rel "related" entry only if the
public feed's own links do. -/
theorem c5_channel_fields (a p : FeedMeta) (now : Nat) (ch : MergedChannel)
    (h : _set_feed_data a p now = Except.ok ch) :
    ch.title = a.title ∧
    ch.description = a.summary ∧
    ch.language = a.language ∧
    ch.rights = a.rights ∧
    ch.ttl = a.ttl.getD CACHE_TTL ∧
    ch.author_name = a.author_detail.name ∧
    ch.author_email = a.author_detail.email ∧
    ch.managingEditor = a.author_detail.email ∧
    ch.image_url = a.image.href ∧
    ch.image_title = a.image.title ∧
    ch.image_link = a.image.link ∧
    ch.categories = a.tags ∧
    ch.itunes_explicit = a.itunes_explicit ∧
    ch.itunes_type = a.itunes_type ∧
    ch.itunes_author = a.author_detail.name ∧
    ch.itunes_image = a.image.href ∧
    ch.itunes_subtitle = p.subtitle ∧
    ch.itunes_summary = a.summary ∧
    ch.owner_name = a.author_detail.name ∧
    ch.owner_email = a.author_detail.email ∧
    (p.links.find? (fun l => l.rel == some "self") = none →
      ch.links = a.links.map acastLinkOut) ∧
    (∀ sl hrf, p.links.find? (fun l => l.rel == some "self") = some sl →
      sl.href = some hrf →
      ch.links = a.links.map acastLinkOut ++
        [{ rel := some "related", href := some hrf,
           type := some "application/rss+xml", length := none,
           title := "Patreon Feed" }]) := by
  unfold _set_feed_data at h
  cases hfind : p.links.find? (fun l => l.rel == some "self") with
  | none =>
    simp only [hfind] at h
    cases h
    exact ⟨rfl, rfl, rfl, rfl, rfl, rfl, rfl, rfl, rfl, rfl, rfl, rfl, rfl,
      rfl, rfl, rfl, rfl, rfl, rfl, rfl, fun _ => rfl,
      fun _ _ hn _ => Option.noConfusion hn⟩
  | some l =>
    simp only [hfind] at h
    cases hhref : l.href with
    | none =>
      simp only [hhref] at h
      exact Except.noConfusion h
    | some hr =>
      simp only [hhref] at h
      cases h
      refine ⟨rfl, rfl, rfl, rfl, rfl, rfl, rfl, rfl, rfl, rfl, rfl, rfl, rfl,
        rfl, rfl, rfl, rfl, rfl, rfl, rfl, fun hn => Option.noConfusion hn, ?_⟩
      intro sl hrf he hh
      injection he with he
      subst he
      rw [hhref] at hh
      injection hh with hh
      subst hh
      rfl

/-- C5 witness: the amended theorem applied to the plain public fixture
and a personal fixture with a proper self link, with the append-exception
conjunct instantiated at that self link: the merged link list is the
public links followed by the appended "related" link. -/
theorem c5_witness :
    (channelOr wAcastPlain wPatreonSelf 3).title = wAcastPlain.title ∧
    (channelOr wAcastPlain wPatreonSelf 3).description = wAcastPlain.summary ∧
    (channelOr wAcastPlain wPatreonSelf 3).language = wAcastPlain.language ∧
    (channelOr wAcastPlain wPatreonSelf 3).rights = wAcastPlain.rights ∧
    (channelOr wAcastPlain wPatreonSelf 3).ttl = wAcastPlain.ttl.getD CACHE_TTL ∧
    (channelOr wAcastPlain wPatreonSelf 3).author_name = wAcastPlain.author_detail.name ∧
    (channelOr wAcastPlain wPatreonSelf 3).author_email = wAcastPlain.author_detail.email ∧
    (channelOr wAcastPlain wPatreonSelf 3).managingEditor = wAcastPlain.author_detail.email ∧
    (channelOr wAcastPlain wPatreonSelf 3).image_url = wAcastPlain.image.href ∧
    (channelOr wAcastPlain wPatreonSelf 3).image_title = wAcastPlain.image.title ∧
    (channelOr wAcastPlain wPatreonSelf 3).image_link = wAcastPlain.image.link ∧
    (channelOr wAcastPlain wPatreonSelf 3).categories = wAcastPlain.tags ∧
    (channelOr wAcastPlain wPatreonSelf 3).itunes_explicit = wAcastPlain.itunes_explicit ∧
    (channelOr wAcastPlain wPatreonSelf 3).itunes_type = wAcastPlain.itunes_type ∧
    (channelOr wAcastPlain wPatreonSelf 3).itunes_author = wAcastPlain.author_detail.name ∧
    (channelOr wAcastPlain wPatreonSelf 3).itunes_image = wAcastPlain.image.href ∧
    (channelOr wAcastPlain wPatreonSelf 3).itunes_subtitle = wPatreonSelf.subtitle ∧
    (channelOr wAcastPlain wPatreonSelf 3).itunes_summary = wAcastPlain.summary ∧
    (channelOr wAcastPlain wPatreonSelf 3).owner_name = wAcastPlain.author_detail.name ∧
    (channelOr wAcastPlain wPatreonSelf 3).owner_email = wAcastPlain.author_detail.email ∧
    (wPatreonSelf.links.find? (fun l => l.rel == some "self") = none →
      (channelOr wAcastPlain wPatreonSelf 3).links = wAcastPlain.links.map acastLinkOut) ∧
    (channelOr wAcastPlain wPatreonSelf 3).links =
      wAcastPlain.links.map acastLinkOut ++
        [{ rel := some "related", href := some "http://p/self",
           type := some "application/rss+xml", length := none,
           title := "Patreon Feed" }] := by
  have h := c5_channel_fields wAcastPlain wPatreonSelf 3
    (channelOr wAcastPlain wPatreonSelf 3) rfl
  obtain ⟨h1, h2, h3, h4, h5, h6, h7, h8, h9, h10, h11, h12, h13, h14, h15,
    h16, h17, h18, h19, h20, hnone, hsome⟩ := h
  exact ⟨h1, h2, h3, h4, h5, h6, h7, h8, h9, h10, h11, h12, h13, h14, h15,
    h16, h17, h18, h19, h20, hnone,
    hsome selfWithHref "http://p/self" rfl rfl⟩

/-- C8 counterexample: the public feed carries a generator string
"ExampleGen", but the merged channel's generator label is the hard-coded
"Acast and Patreon", which differs from it. -/
theorem c8_counterexample :
    cexAcastGen.generator = some "ExampleGen" ∧
    _set_feed_data cexAcastGen cexPatreonNoSelf 0 =
      Except.ok (channelOr cexAcastGen cexPatreonNoSelf 0) ∧
    (channelOr cexAcastGen cexPatreonNoSelf 0).generator = "Acast and Patreon" ∧
    ¬ (channelOr cexAcastGen cexPatreonNoSelf 0).generator = "ExampleGen" := by
  refine ⟨rfl, rfl, rfl, ?_⟩
  decide

/-- C8 amended: the merged channel's title, description/summary, language
and rights equal the public feed's fields; the generator label is the
constant "Acast and Patreon" rather than the public feed's generator
field. -/
theorem c8_base_fields (a p : FeedMeta) (now : Nat) (ch : MergedChannel)
    (h : _set_feed_data a p now = Except.ok ch) :
    ch.title = a.title ∧
    ch.description = a.summary ∧
    ch.language = a.language ∧
    ch.rights = a.rights ∧
    ch.generator = "Acast and Patreon" := by
  unfold _set_feed_data at h
  cases hfind : p.links.find? (fun l => l.rel == some "self") with
  | none =>
    simp only [hfind] at h
    cases h
    exact ⟨rfl, rfl, rfl, rfl, rfl⟩
  | some l =>
    simp only [hfind] at h
    cases hhref : l.href with
    | none =>
      simp only [hhref] at h
      exact Except.noConfusion h
    | some hr =>
      simp only [hhref] at h
      cases h
      exact ⟨rfl, rfl, rfl, rfl, rfl⟩

/-- C8 witness: the amended theorem applied to the generator-carrying
public fixture. -/
theorem c8_witness :
    (channelOr cexAcastGen wPatreonSelf 0).title = cexAcastGen.title ∧
    (channelOr cexAcastGen wPatreonSelf 0).description = cexAcastGen.summary ∧
    (channelOr cexAcastGen wPatreonSelf 0).language = cexAcastGen.language ∧
    (channelOr cexAcastGen wPatreonSelf 0).rights = cexAcastGen.rights ∧
    (channelOr cexAcastGen wPatreonSelf 0).generator = "Acast and Patreon" :=
  c8_base_fields cexAcastGen wPatreonSelf 0 (channelOr cexAcastGen wPatreonSelf 0) rfl

/-- C10 counterexample: reconciliation is not error-free for every pair of
parsed feeds — when the personal feed's first rel "self" link has no href
key, the direct index on line 40 raises a `KeyError` instead of producing
a channel. -/
theorem c10_counterexample :
    _set_feed_data wAcastPlain cexPatreonSelfNoHref 0 =
      Except.error "KeyError: href" := rfl

/-- C10 amended: when the personal feed has no rel "self" link at all,
reconciliation always succeeds without raising and simply omits the
"related" link (the merged link list is the public feed's re-emitted
links); but when the first rel "self" link lacks an href, reconciliation
raises a `KeyError` rather than producing a channel. -/
theorem c10_no_self_ok (a p : FeedMeta) (now : Nat)
    (h : p.links.find? (fun l => l.rel == some "self") = none) :
    _set_feed_data a p now = Except.ok (channelOr a p now) ∧
    (channelOr a p now).links = a.links.map acastLinkOut := by
  have hok : _set_feed_data a p now =
      Except.ok ((fun links => MergedChannel.mk a.title a.summary links
        a.language a.rights (a.ttl.getD CACHE_TTL) "Acast and Patreon"
        a.author_detail.name a.author_detail.email a.author_detail.email
        a.image.href a.image.title a.image.link a.tags a.itunes_explicit
        a.itunes_type a.author_detail.name a.image.href p.subtitle a.summary
        a.author_detail.name a.author_detail.email now)
        (a.links.map acastLinkOut)) := by
    unfold _set_feed_data
    rw [h]
  refine ⟨?_, ?_⟩
  · rw [hok]
    unfold channelOr
    rw [hok]
  · unfold channelOr
    rw [hok]

/-- C10 witness: the amended theorem applied to a personal fixture without
a self link. -/
theorem c10_witness :
    _set_feed_data wAcastPlain cexPatreonNoSelf 7 =
      Except.ok (channelOr wAcastPlain cexPatreonNoSelf 7) ∧
    (channelOr wAcastPlain cexPatreonNoSelf 7).links =
      wAcastPlain.links.map acastLinkOut :=
  c10_no_self_ok wAcastPlain cexPatreonNoSelf 7 rfl

/-! ### Cache and pipeline lemmas (C4, C6, C7) -/

theorem cacheLookup_store_fresh (c : Cache) (k : String) (t tq : Nat)
    (v : MergedFeed) (h : tq < t + CACHE_TTL) :
    cacheLookup (cacheStore c k t v) k tq = some v := by
  simp [cacheLookup, cacheStore, List.find?, h]

theorem cacheLookup_store_stale (c : Cache) (k : String) (t tq : Nat)
    (v : MergedFeed) (h : t + CACHE_TTL ≤ tq) :
    cacheLookup (cacheStore c k t v) k tq = none := by
  simp [cacheLookup, cacheStore, List.find?, Nat.not_lt.mpr h]

theorem cacheLookup_none_mono {c : Cache} {k : String} {t tq : Nat}
    (h : cacheLookup c k t = none) (hle : t ≤ tq) :
    cacheLookup c k tq = none := by
  unfold cacheLookup at h ⊢
  cases hf : c.find? (fun e => e.1 == k) with
  | none => rfl
  | some e =>
    rcases e with ⟨k0, exp, v⟩
    rw [hf] at h
    by_cases hlt : t < exp
    · simp [hlt] at h
    · have : ¬ tq < exp := by omega
      simp [this]

theorem generate_ok_log {world : FetchSrc → ParsedFeed} {now : Nat}
    {v : MergedFeed} (h : (generate_merged_feed world now).1 = Except.ok v) :
    (generate_merged_feed world now).2 = [FetchSrc.acast, FetchSrc.patreon] := by
  unfold generate_merged_feed at h ⊢
  by_cases h1 : HTTP_ERROR ≤ (world FetchSrc.acast).status
  · simp [h1] at h
  · simp only [if_neg h1] at h ⊢
    by_cases h2 : HTTP_ERROR ≤ (world FetchSrc.patreon).status
    · simp [h2] at h
    · simp only [if_neg h2] at h ⊢
      cases hsd : _set_feed_data (world FetchSrc.acast).feed
          (world FetchSrc.patreon).feed now with
      | error m => simp [hsd] at h
      | ok ch =>
        simp only [hsd] at h ⊢
        cases hme : mergeEntries (world FetchSrc.acast).entries
            (world FetchSrc.patreon).entries with
        | error m => simp [hme] at h
        | ok es => simp [hme]

theorem generate_fetches_acast_first (world : FetchSrc → ParsedFeed) (now : Nat) :
    (generate_merged_feed world now).2 = [FetchSrc.acast] ∨
    (generate_merged_feed world now).2 = [FetchSrc.acast, FetchSrc.patreon] := by
  unfold generate_merged_feed
  by_cases h1 : HTTP_ERROR ≤ (world FetchSrc.acast).status
  · left
    simp [h1]
  · right
    simp only [if_neg h1]
    by_cases h2 : HTTP_ERROR ≤ (world FetchSrc.patreon).status
    · simp [h2]
    · simp only [if_neg h2]
      cases hsd : _set_feed_data (world FetchSrc.acast).feed
          (world FetchSrc.patreon).feed now with
      | error m => simp
      | ok ch =>
        cases hme : mergeEntries (world FetchSrc.acast).entries
            (world FetchSrc.patreon).entries with
        | error m => simp [hme]
        | ok es => simp [hme]

theorem generate_fetches_ne_nil (world : FetchSrc → ParsedFeed) (now : Nat) :
    (generate_merged_feed world now).2 ≠ [] := by
  rcases generate_fetches_acast_first world now with h | h <;>
    simp [h]

/-! ### C4 (TTL caching) -/

/-- C4: starting from a cache with no fresh entry for the credential, a
first successful call at time t0 performs the one upstream fetch pair and
stores the built feed; a second call at any t1 inside the TTL window of 60
seconds returns the previously built feed, touching neither the cache nor
the upstreams (no fetch at all); and a call at any t2 at or past expiry
misses the cache and performs the fetches of a fresh build. -/
theorem c4_ttl_cache (world : FetchSrc → ParsedFeed) (token : String)
    (t0 t1 t2 : Nat) (cache0 : Cache) (v : MergedFeed)
    (hmiss : cacheLookup cache0 token t0 = none)
    (hbuild : (generate_merged_feed world t0).1 = Except.ok v)
    (h01 : t0 ≤ t1) (h1 : t1 < t0 + CACHE_TTL) (h2 : t0 + CACHE_TTL ≤ t2) :
    cachedPipeline world token t0 cache0 =
      (Except.ok v, cacheStore cache0 token t0 v,
        [FetchSrc.acast, FetchSrc.patreon]) ∧
    cachedPipeline world token t1 (cacheStore cache0 token t0 v) =
      (Except.ok v, cacheStore cache0 token t0 v, []) ∧
    (cachedPipeline world token t2 (cacheStore cache0 token t0 v)).2.2 =
      (generate_merged_feed world t2).2 ∧
    (generate_merged_feed world t2).2 ≠ [] := by
  have hlog := generate_ok_log hbuild
  refine ⟨?_, ?_, ?_, generate_fetches_ne_nil world t2⟩
  · unfold cachedPipeline
    rw [hmiss]
    rcases hg : generate_merged_feed world t0 with ⟨r, log⟩
    rw [hg] at hbuild hlog
    simp only at hbuild hlog
    rw [hbuild, hlog]
  · unfold cachedPipeline
    rw [cacheLookup_store_fresh cache0 token t0 t1 v h1]
  · unfold cachedPipeline
    rw [cacheLookup_store_stale cache0 token t0 t2 v h2]
    rcases hg : generate_merged_feed world t2 with ⟨r, log⟩
    cases r <;> simp

/-- Fixture merged feed value of the successful fixture world. -/
def wWorld : FetchSrc → ParsedFeed := fun s =>
  match s with
  | FetchSrc.acast => ⟨200, wAcastPlain, wPub⟩
  | FetchSrc.patreon => ⟨200, wPatreonSelf, wPers⟩

/-- The merged feed the fixture world builds. -/
def wFeedV : MergedFeed :=
  match generate_merged_feed wWorld 0 with
  | (Except.ok v, _) => v
  | (Except.error _, _) => ⟨defaultChannel, []⟩

/-- C4 witness: the theorem applied to the fixture world at times 0, 59
and 60 from the empty cache. -/
theorem c4_witness :
    cachedPipeline wWorld "tok" 0 [] =
      (Except.ok wFeedV, cacheStore [] "tok" 0 wFeedV,
        [FetchSrc.acast, FetchSrc.patreon]) ∧
    cachedPipeline wWorld "tok" 59 (cacheStore [] "tok" 0 wFeedV) =
      (Except.ok wFeedV, cacheStore [] "tok" 0 wFeedV, []) ∧
    (cachedPipeline wWorld "tok" 60 (cacheStore [] "tok" 0 wFeedV)).2.2 =
      (generate_merged_feed wWorld 60).2 ∧
    (generate_merged_feed wWorld 60).2 ≠ [] :=
  c4_ttl_cache wWorld "tok" 0 59 60 [] wFeedV rfl rfl
    (by decide) (by decide) (by decide)

/-! ### C6 (upstream status passthrough, public checked first) -/

/-- C6: on a cache miss, an upstream status of at least 400 makes the
build raise an `HTTPException` carrying that same status, which the route
answers with; the public feed's status is checked before the personal feed
is fetched, so a public-feed failure is surfaced with only the one public
fetch performed and the cache untouched, and a personal-feed failure (with
the public fetch fine) is surfaced as the personal feed's status, again
with nothing cached. -/
theorem c6_status_passthrough (world : FetchSrc → ParsedFeed) (token : String)
    (now : Nat) (cache : Cache)
    (hmiss : cacheLookup cache token now = none) :
    (HTTP_ERROR ≤ (world FetchSrc.acast).status →
      cachedPipeline world token now cache =
        (Except.error (BuildErr.httpError (world FetchSrc.acast).status
          "Error fetching Acast feed"), cache, [FetchSrc.acast]) ∧
      rssStatus world token now cache = ((world FetchSrc.acast).status, cache)) ∧
    ((world FetchSrc.acast).status < HTTP_ERROR →
      HTTP_ERROR ≤ (world FetchSrc.patreon).status →
      cachedPipeline world token now cache =
        (Except.error (BuildErr.httpError (world FetchSrc.patreon).status
          "Error fetching Patreon feed. Auth token correct?"), cache,
          [FetchSrc.acast, FetchSrc.patreon]) ∧
      rssStatus world token now cache = ((world FetchSrc.patreon).status, cache)) := by
  constructor
  · intro ha
    have hcp : cachedPipeline world token now cache =
        (Except.error (BuildErr.httpError (world FetchSrc.acast).status
          "Error fetching Acast feed"), cache, [FetchSrc.acast]) := by
      unfold cachedPipeline generate_merged_feed
      rw [hmiss]
      simp [ha]
    exact ⟨hcp, by unfold rssStatus; rw [hcp]⟩
  · intro ha hp
    have hcp : cachedPipeline world token now cache =
        (Except.error (BuildErr.httpError (world FetchSrc.patreon).status
          "Error fetching Patreon feed. Auth token correct?"), cache,
          [FetchSrc.acast, FetchSrc.patreon]) := by
      unfold cachedPipeline generate_merged_feed
      rw [hmiss]
      simp [Nat.not_le.mpr ha, hp]
    exact ⟨hcp, by unfold rssStatus; rw [hcp]⟩

/-- Fixture world whose public feed answers 503. -/
def wWorldAcastFail : FetchSrc → ParsedFeed := fun s =>
  match s with
  | FetchSrc.acast => ⟨503, wAcastPlain, wPub⟩
  | FetchSrc.patreon => ⟨200, wPatreonSelf, wPers⟩

/-- C6 witness: the theorem applied to the failing-public fixture world:
the service answers 503, only the public fetch happens and the cache stays
empty. -/
theorem c6_witness :
    cachedPipeline wWorldAcastFail "tok" 0 [] =
      (Except.error (BuildErr.httpError 503 "Error fetching Acast feed"),
        [], [FetchSrc.acast]) ∧
    rssStatus wWorldAcastFail "tok" 0 [] = (503, []) :=
  (c6_status_passthrough wWorldAcastFail "tok" 0 [] rfl).1 (by decide)

/-! ### C7 (a failed build never poisons the cache) -/

/-- C7: on a cache miss, a failed build (any error, including a fetch
error) stores nothing: the cache comes out exactly as it went in, and a
later request with the same credential misses again and performs the
upstream fetches of a fresh build. -/
theorem c7_failed_build_not_cached (world : FetchSrc → ParsedFeed)
    (token : String) (now : Nat) (cache : Cache) (e : BuildErr)
    (log : List FetchSrc)
    (hmiss : cacheLookup cache token now = none)
    (hfail : generate_merged_feed world now = (Except.error e, log)) :
    cachedPipeline world token now cache = (Except.error e, cache, log) ∧
    ∀ tq : Nat, now ≤ tq →
      (cachedPipeline world token tq cache).2.2 =
        (generate_merged_feed world tq).2 ∧
      (generate_merged_feed world tq).2 ≠ [] := by
  constructor
  · unfold cachedPipeline
    rw [hmiss, hfail]
  · intro tq hle
    have hmiss2 := cacheLookup_none_mono hmiss hle
    refine ⟨?_, generate_fetches_ne_nil world tq⟩
    unfold cachedPipeline
    rw [hmiss2]
    rcases hg : generate_merged_feed world tq with ⟨r, log2⟩
    cases r <;> simp

/-- C7 witness: the theorem applied to the failing-public fixture world at
time 3, with the retry conclusion instantiated at time 8. -/
theorem c7_witness :
    cachedPipeline wWorldAcastFail "tok2" 3 [] =
      (Except.error (BuildErr.httpError 503 "Error fetching Acast feed"),
        [], [FetchSrc.acast]) ∧
    ((cachedPipeline wWorldAcastFail "tok2" 8 []).2.2 =
        (generate_merged_feed wWorldAcastFail 8).2 ∧
      (generate_merged_feed wWorldAcastFail 8).2 ≠ []) := by
  have h := c7_failed_build_not_cached wWorldAcastFail "tok2" 3 []
    (BuildErr.httpError 503 "Error fetching Acast feed") [FetchSrc.acast] rfl rfl
  exact ⟨h.1, h.2 8 (by decide)⟩

end FeedApp
